import Mathlib

/-!
A shallow embedding of the three `hello.rs` variants of the repository
(`suite/.workdir/edit-existing-file_*/hello.rs`).  Every `println!` call
appends one line to standard output, so a program run is modelled as the
ordered `List String` of printed lines.  The process argument list that the
host runtime supplies (invocation name at index 0, then the user tokens) is
passed to each embedded `main` as an explicit parameter `procArgs`.
-/

namespace HelloSuite

/-- The line printed by `println!("  [{}]: {}", i, arg)` — the per-argument
statement shared verbatim by the opus and glm variants — for index `i` and
argument text `s`. -/
def entryLine (i : Nat) (s : String) : String :=
  "  [" ++ toString i ++ "]: " ++ s

/-- Observation helper: recover the argument text from the entry line of
index `i` by dropping the characters of the `"  [i]: "` prelude again. -/
def entryText (i : Nat) (l : String) : String :=
  String.mk (l.data.drop ("  [" ++ toString i ++ "]: ").length)

/-- Observation helper: an output line is in per-argument entry format
exactly when it starts with the three characters `  [`. -/
def isEntry (l : String) : Bool :=
  l.data.take 3 == [' ', ' ', '[']

namespace Opus

/-- Embeds `debug_args` of the
`edit-existing-file_anthropic_claude-opus-4-5-20251101` variant.  The Rust
function takes no parameter and re-acquires the process argument list via
`env::args().collect()`; that process-global state appears here as the
explicit parameter `procArgs`.  It prints a header line and then, iterating
with `iter().enumerate()`, one entry line per argument. -/
def debug_args (procArgs : List String) : List String :=
  "Debug: Program arguments:" :: procArgs.enum.map (fun p => entryLine p.1 p.2)

/-- Embeds `main` of the opus variant: call `debug_args()`, then print
`Hello, world!`. -/
def main (procArgs : List String) : List String :=
  debug_args procArgs ++ ["Hello, world!"]

/-- A full host-level run: the host supplies the process argument list and
the process environment variables.  The source never reads an environment
variable, so `envVars` does not occur in the body. -/
def run (procArgs : List String) (envVars : List (String × String)) : List String :=
  main procArgs

end Opus

namespace Glm

/-- Embeds `debug_args(args: &[String])` of the
`edit-existing-file_ollama_glm-4.7-flash_latest` variant: it receives the
argument list as an explicit parameter, prints a header line and then,
iterating with `iter().enumerate()`, one entry line per argument. -/
def debug_args (args : List String) : List String :=
  "Debug - All arguments:" :: args.enum.map (fun p => entryLine p.1 p.2)

/-- Embeds `main` of the glm variant: it prints `Hello, world!` first, then
collects `std::env::args()` and calls `debug_args` on them. -/
def main (procArgs : List String) : List String :=
  ["Hello, world!"] ++ debug_args procArgs

/-- A full host-level run of the glm variant; the source never reads an
environment variable, so `envVars` does not occur in the body. -/
def run (procArgs : List String) (envVars : List (String × String)) : List String :=
  main procArgs

end Glm

namespace Qwen

/-- Embeds `debug_print_args` of the
`edit-existing-file_ollama_qwen3-coder_64k` variant: a stub that only prints
a fixed placeholder line and never touches the argument list. -/
def debug_print_args : List String :=
  ["Debug: This function would print all arguments if we had them"]

/-- Embeds `main` of the qwen variant: call `debug_print_args()`, then print
`Hello, world!`.  The process argument list is never read. -/
def main (procArgs : List String) : List String :=
  debug_print_args ++ ["Hello, world!"]

/-- A full host-level run of the qwen variant; neither the argument list nor
the environment variables occur in the body. -/
def run (procArgs : List String) (envVars : List (String × String)) : List String :=
  main procArgs

end Qwen

theorem entryLine_data (i : Nat) (s : String) :
    (entryLine i s).data =
      ' ' :: ' ' :: '[' :: ((toString i).data ++ ("]: ".data ++ s.data)) := by
  show ((("  [" ++ toString i) ++ "]: ") ++ s).data = _
  rw [String.data_append, String.data_append, String.data_append,
    List.append_assoc, List.append_assoc]
  rfl

theorem entryLine_head (i : Nat) (s : String) :
    (entryLine i s).data.head? = some ' ' := by
  rw [entryLine_data]
  rfl

theorem entryLine_ne_of_head (i : Nat) (s : String) {t : String}
    (h : t.data.head? ≠ some ' ') : entryLine i s ≠ t := by
  intro he
  exact h (he ▸ entryLine_head i s)

theorem entryText_entryLine (i : Nat) (s : String) :
    entryText i (entryLine i s) = s := by
  show String.mk (((("  [" ++ toString i) ++ "]: ") ++ s).data.drop
    ("  [" ++ toString i ++ "]: ").length) = s
  rw [String.data_append]
  rw [show ("  [" ++ toString i ++ "]: ").length =
    (("  [" ++ toString i) ++ "]: ").data.length from rfl]
  rw [List.drop_left]

theorem isEntry_entryLine (i : Nat) (s : String) :
    isEntry (entryLine i s) = true := by
  unfold isEntry
  rw [entryLine_data]
  rfl

theorem entries_count_eq_zero (l : List (Nat × String)) {t : String}
    (h : t.data.head? ≠ some ' ') :
    (l.map (fun p => entryLine p.1 p.2)).count t = 0 := by
  rw [List.count_eq_zero]
  intro hmem
  rcases List.mem_map.1 hmem with ⟨p, _, hp⟩
  exact entryLine_ne_of_head p.1 p.2 h hp

theorem entries_filter_not (l : List (Nat × String)) :
    (l.map (fun p => entryLine p.1 p.2)).filter (fun x => !(isEntry x)) = [] := by
  rw [List.filter_eq_nil_iff]
  intro a ha
  rcases List.mem_map.1 ha with ⟨p, _, hp⟩
  rw [← hp]
  simp [isEntry_entryLine]

theorem entries_filter_self (l : List (Nat × String)) :
    (l.map (fun p => entryLine p.1 p.2)).filter isEntry
      = l.map (fun p => entryLine p.1 p.2) := by
  rw [List.filter_eq_self]
  intro a ha
  rcases List.mem_map.1 ha with ⟨p, _, hp⟩
  rw [← hp]
  exact isEntry_entryLine p.1 p.2

/-- Claim C1, counterexample: the qwen variant is cited as one of the
reporters, but its output for the one-entry argument list `["zqz"]` is the
same as for the empty argument list, and no output line even contains the
character `z`, so the printed listing cannot contain one entry whose text
value matches the input entry `zqz`. -/
theorem claim1_counterexample :
    Qwen.main ["zqz"] = Qwen.main [] ∧
    (Qwen.main ["zqz"]).all (fun l => !(l.data.contains 'z')) = true := by
  decide

/-- Claim C1, amended: for the two functional variants (opus and glm), the
listing printed after the header contains exactly `N` entries for an
argument list of `N` entries, and entry `i` carries the zero-based index `i`
together with the text of argument `i`; the qwen stub prints no entries at
all (see the counterexample). -/
theorem claim1_amended (args : List String) :
    ((Opus.debug_args args).drop 1).length = args.length ∧
    ((Glm.debug_args args).drop 1).length = args.length ∧
    ∀ i s, args[i]? = some s →
      ((Opus.debug_args args).drop 1)[i]? = some (entryLine i s) ∧
      ((Glm.debug_args args).drop 1)[i]? = some (entryLine i s) := by
  refine ⟨?_, ?_, fun i s h => ⟨?_, ?_⟩⟩
  · simp [Opus.debug_args, List.enum_length]
  · simp [Glm.debug_args, List.enum_length]
  · simp [Opus.debug_args, List.getElem?_enum, h]
  · simp [Glm.debug_args, List.getElem?_enum, h]

/-- Claim C1, witness: the amended theorem evaluated on the one-entry
argument list `["hi"]`. -/
theorem claim1_witness :
    ((Opus.debug_args ["hi"]).drop 1)[0]? = some (entryLine 0 "hi") ∧
    ((Glm.debug_args ["hi"]).drop 1)[0]? = some (entryLine 0 "hi") :=
  (claim1_amended ["hi"]).2.2 0 "hi" rfl

/-- Claim C2: for every argument list, the output of each of the three
variants contains the line `Hello, world!` exactly once. -/
theorem claim2 (args : List String) :
    (Opus.main args).count ("Hello, world!") = 1 ∧
    (Glm.main args).count ("Hello, world!") = 1 ∧
    (Qwen.main args).count ("Hello, world!") = 1 := by
  refine ⟨?_, ?_, rfl⟩
  · rw [Opus.main, List.count_append, Opus.debug_args, List.count_cons,
      entries_count_eq_zero _ (by decide)]
    decide
  · rw [Glm.main, List.count_append, Glm.debug_args, List.count_cons,
      List.count_cons, entries_count_eq_zero _ (by decide)]
    decide

/-- Claim C3, counterexample: in the glm variant the greeting is printed
before the listing, not after it: with process argument list `["p"]` the
greeting is the first output line and the entry line `  [0]: p` comes after
it, so the listing lines do not all precede the greeting. -/
theorem claim3_counterexample :
    Glm.main ["p"] = ["Hello, world!", "Debug - All arguments:", "  [0]: p"] ∧
    ¬ ((Glm.main ["p"]).indexOf ("  [0]: p")
        < (Glm.main ["p"]).indexOf ("Hello, world!")) := by
  decide

/-- Claim C3, amended: the opus and qwen variants print the greeting as the
last output line, after the listing; the glm variant prints the greeting as
the first output line, before the listing. -/
theorem claim3_amended (args : List String) :
    (Opus.main args).getLast? = some ("Hello, world!") ∧
    (Glm.main args).head? = some ("Hello, world!") ∧
    (Qwen.main args).getLast? = some ("Hello, world!") :=
  ⟨List.getLast?_concat _, rfl, List.getLast?_concat _⟩

/-- Claim C4: the qwen variant is a non-functional stub: for every argument
list its whole output is the same two fixed lines, the placeholder line
followed by the greeting, with no argument entries. -/
theorem claim4 (args : List String) :
    Qwen.main args =
      ["Debug: This function would print all arguments if we had them",
        "Hello, world!"] := rfl

/-- Claim C5: for every argument present at index `i` of the input list, the
opus and glm reporters print one line carrying the zero-based index `i` and
the literal argument text, unchanged; a token containing whitespace stays
one unsplit entry (see the witness). -/
theorem claim5 (args : List String) (i : Nat) (s : String)
    (h : args[i]? = some s) :
    (Opus.debug_args args)[i + 1]? = some ("  [" ++ toString i ++ "]: " ++ s) ∧
    (Glm.debug_args args)[i + 1]? = some ("  [" ++ toString i ++ "]: " ++ s) := by
  refine ⟨?_, ?_⟩
  · simp [Opus.debug_args, List.getElem?_enum, h, entryLine]
  · simp [Glm.debug_args, List.getElem?_enum, h, entryLine]

/-- Claim C5, witness: the single token `hello world` is reproduced verbatim
as one listing entry. -/
theorem claim5_witness :
    (Opus.debug_args ["hello world"])[1]? = some ("  [0]: hello world") ∧
    (Glm.debug_args ["hello world"])[1]? = some ("  [0]: hello world") :=
  claim5 ["hello world"] 0 "hello world" rfl

/-- Claim C6: given the same process argument list, the opus reporter (which
re-acquires the arguments from process-global state) and the glm reporter
(which takes them as an explicit parameter) print the same sequence of
per-argument listing lines; only their header lines differ. -/
theorem claim6 (args : List String) :
    (Opus.debug_args args).drop 1 = (Glm.debug_args args).drop 1 := rfl

/-- Claim C7: each variant's output is a deterministic function of the
process argument list alone; the environment variables supplied by the host
never influence it, so two runs with identical argument lists produce
identical output. -/
theorem claim7 (args : List String) (e₁ e₂ : List (String × String)) :
    Opus.run args e₁ = Opus.run args e₂ ∧
    Glm.run args e₁ = Glm.run args e₂ ∧
    Qwen.run args e₁ = Qwen.run args e₂ :=
  ⟨rfl, rfl, rfl⟩

/-- Claim C8: the argument list is never altered between acquisition and
printing: stripping the `"  [i]: "` prelude from the listing lines recovers,
position by position, exactly the acquired argument list (both sides are
`none` beyond its length, so the printed listing carries no more and no
fewer entries either). -/
theorem claim8 (args : List String) (i : Nat) :
    (((Opus.debug_args args).drop 1)[i]?).map (entryText i) = args[i]? ∧
    (((Glm.debug_args args).drop 1)[i]?).map (entryText i) = args[i]? := by
  refine ⟨?_, ?_⟩
  · rw [show (Opus.debug_args args).drop 1
        = args.enum.map (fun p => entryLine p.1 p.2) from rfl]
    rw [List.getElem?_map, List.getElem?_enum]
    cases h : args[i]? with
    | none => rfl
    | some s => simp [entryText_entryLine]
  · rw [show (Glm.debug_args args).drop 1
        = args.enum.map (fun p => entryLine p.1 p.2) from rfl]
    rw [List.getElem?_map, List.getElem?_enum]
    cases h : args[i]? with
    | none => rfl
    | some s => simp [entryText_entryLine]

/-- Claim C9: every run terminates after a structural traversal of the
finite argument list: for an argument list of `N` entries the opus and glm
variants finish having printed exactly `N + 2` lines, and the qwen variant
exactly `2` lines. -/
theorem claim9 (args : List String) :
    (Opus.main args).length = args.length + 2 ∧
    (Glm.main args).length = args.length + 2 ∧
    (Qwen.main args).length = 2 := by
  refine ⟨?_, ?_, rfl⟩
  · simp [Opus.main, Opus.debug_args, List.enum_length]
  · simp [Glm.main, Glm.debug_args, List.enum_length]

/-- Claim C10: neither the opus nor the glm variant prints a count line: for
an argument list of `N` entries each prints exactly `N + 2` lines, of which
the non-entry lines are exactly its fixed debug header and the greeting, and
the entry-format lines number exactly `N`. -/
theorem claim10 (args : List String) :
    (Opus.main args).length = args.length + 2 ∧
    (Opus.main args).filter (fun l => !(isEntry l))
      = ["Debug: Program arguments:", "Hello, world!"] ∧
    ((Opus.main args).filter isEntry).length = args.length ∧
    (Glm.main args).length = args.length + 2 ∧
    (Glm.main args).filter (fun l => !(isEntry l))
      = ["Hello, world!", "Debug - All arguments:"] ∧
    ((Glm.main args).filter isEntry).length = args.length := by
  have hh1 : isEntry ("Debug: Program arguments:") = false := rfl
  have hh2 : isEntry ("Debug - All arguments:") = false := rfl
  have hg : isEntry ("Hello, world!") = false := rfl
  refine ⟨?_, ?_, ?_, ?_, ?_, ?_⟩
  · simp [Opus.main, Opus.debug_args, List.enum_length]
  · simp [Opus.main, Opus.debug_args, List.filter_append, List.filter_cons,
      hh1, hg, entries_filter_not]
  · simp [Opus.main, Opus.debug_args, List.filter_append, List.filter_cons,
      hh1, hg, entries_filter_self, List.enum_length]
  · simp [Glm.main, Glm.debug_args, List.enum_length]
  · simp [Glm.main, Glm.debug_args, List.filter_append, List.filter_cons,
      hh2, hg, entries_filter_not]
  · simp [Glm.main, Glm.debug_args, List.filter_append, List.filter_cons,
      hh2, hg, entries_filter_self, List.enum_length]

end HelloSuite
